import Mathlib

/-!
Shallow embedding of `agents_toeic_console.py`, a console front-end for a
hosted conversational-agent service.  Remote calls are modelled by passing
their outcomes in explicitly (an `Except` value for a call that can raise an
`HttpResponseError`, an `Option HttpError` for a call whose only observable
effect besides raising is a state change); the thread is modelled as the
ordered list of its messages, oldest first, which is exactly what the
message-list call with ascending order returns.
-/

namespace ToeicConsole

/-- Role of a message, mirroring `MessageRole` from the SDK. -/
inductive MessageRole where
  | user
  | agent
deriving Repr, DecidableEq

/-- A thread message: its role and its ordered list of text-segment values
(`m.text_messages`, each segment contributing `.text.value`). -/
structure Message where
  role : MessageRole
  textMessages : List String
deriving Repr, DecidableEq

/-- An `HttpResponseError` from the service: `status_code` and the text that
`str(e)` produces. -/
structure HttpError where
  status_code : Nat
  message : String
deriving Repr, DecidableEq

/-- A run object as returned by `runs.create_and_process`: its terminal
`status` string and `last_error` detail. -/
structure Run where
  status : String
  last_error : String
deriving Repr, DecidableEq

/-- An exception escaping `run_agent`: either the `RuntimeError` it raises
itself on a failed run, or an `HttpResponseError` propagated from the
underlying service call.  The two constructors are distinct, which models
that the `RuntimeError` is distinguishable from a transport error. -/
inductive AgentError where
  | runtimeError (detail : String)
  | httpError (e : HttpError)
deriving Repr, DecidableEq

/-- A remote agent, identified by its opaque id (`agent.id`). -/
structure Agent where
  id : String
deriving Repr, DecidableEq

/-- Whitespace as Python's `str.strip` removes it (ASCII space, tab, and the
newline family). -/
def pyIsSpace (c : Char) : Bool :=
  c == ' ' || (9 ≤ c.toNat && c.toNat ≤ 13)

/-- Python's `str.strip()`: drop leading and trailing whitespace. -/
def strip (s : String) : String :=
  ⟨((s.data.dropWhile pyIsSpace).reverse.dropWhile pyIsSpace).reverse⟩

/-- Python's `str.lower()` (the texts this program lowercases are ASCII). -/
def lower (s : String) : String :=
  ⟨s.data.map Char.toLower⟩

/-- Auxiliary for substring search: does `p` occur at the head of `s`? -/
def startsWith : List Char → List Char → Bool
  | _, [] => true
  | [], _ :: _ => false
  | c :: cs, p :: ps => c == p && startsWith cs ps

/-- Auxiliary for substring search: does `p` occur anywhere in `s`? -/
def containsSeq (s p : List Char) : Bool :=
  match s with
  | [] => startsWith [] p
  | _ :: rest => startsWith s p || containsSeq rest p

/-- Substring test: `strContains s pattern` is true iff `pattern` occurs in
`s`, modelling Python's `pattern in s`. -/
def strContains (s pattern : String) : Bool :=
  containsSeq s.data pattern.data

/-- Embedding of `run_agent` (source lines 124-140).  The outcome of the
blocking `create_and_process` call is passed in as `response`.  If the call
itself raised, that propagates; otherwise, if the terminal status is
"failed", a `RuntimeError` carrying `run.last_error` is raised; otherwise
the run object is returned unchanged. -/
def run_agent (response : Except HttpError Run) : Except AgentError Run :=
  match response with
  | .error e => .error (.httpError e)
  | .ok run =>
    if run.status = "failed" then
      .error (.runtimeError ("Run failed: " ++ run.last_error))
    else
      .ok run

/-- One step of the accumulation loop in `fetch_messages`: if the message has
at least one text segment (`if m.text_messages:`), append the value of its
last segment (`m.text_messages[-1].text.value`); otherwise leave the
accumulator unchanged. -/
def fetch_step (out : List String) (m : Message) : List String :=
  match m.textMessages.getLast? with
  | some t => out ++ [t]
  | none => out

/-- Embedding of `fetch_messages` (source lines 142-156).  `msgs` is the
sequence returned by `messages.list(..., order=ASCENDING)`, i.e. the thread's
messages oldest first; the Python `for` loop over it with an accumulator is a
left fold of `fetch_step`. -/
def fetch_messages (msgs : List Message) : List String :=
  msgs.foldl fetch_step []

/-- Modelled from the spec (refinement reference for the `fetch_messages`
claim): "for every message that has at least one text segment, selects only
its last segment's text and appends it to the output sequence; messages
without any text segment are skipped entirely", in ascending order. -/
def spec_fetch_messages (msgs : List Message) : List String :=
  msgs.filterMap (fun m => m.textMessages.getLast?)

/-- Embedding of `show_latest` (source lines 236-247): the returned value is
`messages[-1]` when `fetch_messages` produced a non-empty list and the
placeholder string otherwise (the framed printing is console output only). -/
def show_latest (msgs : List Message) : String :=
  let messages := fetch_messages msgs
  match messages.getLast? with
  | some latest => latest
  | none => "(no messages)"

/-- Embedding of `append_user_message` (source lines 112-121): one message
with role user and the given raw text as its single segment is appended to
the thread. -/
def append_user_message (thread : List Message) (content : String) : List Message :=
  thread ++ [⟨MessageRole.user, [content]⟩]

/-- What `ensure_agent` produces: either `SystemExit` with its message, or an
agent together with the `created_new` flag. -/
inductive EnsureOutcome where
  | exit (msg : String)
  | ok (agent : Agent) (created_new : Bool)
deriving Repr, DecidableEq

/-- Counts of the remote calls `ensure_agent` performed. -/
structure EnsureTrace where
  getCalls : Nat
  createCalls : Nat
deriving Repr, DecidableEq

/-- Embedding of `ensure_agent` (source lines 72-100).  `get_agent` gives the
outcome of `project.agents.get_agent` for an id, `created` is the agent that
`create_agent` would return.  With a configured existing id, one get call is
made; an `HttpResponseError` there becomes `SystemExit` with the error text
and nothing is created.  Without a configured id, one agent is created and
flagged as new. -/
def ensure_agent (existing_agent_id : Option String)
    (get_agent : String → Except HttpError Agent)
    (created : Agent) : EnsureOutcome × EnsureTrace :=
  match existing_agent_id with
  | some id =>
    match get_agent id with
    | .ok ag => (.ok ag false, ⟨1, 0⟩)
    | .error e => (.exit ("既存エージェント取得失敗: " ++ e.message), ⟨1, 0⟩)
  | none => (.ok created true, ⟨0, 1⟩)

/-- Outcome of the underlying `delete_agent` call: normal return, an
`HttpResponseError`, or any other exception with its text. -/
inductive DeleteOutcome where
  | success
  | httpError (e : HttpError)
  | otherExn (msg : String)
deriving Repr, DecidableEq

/-- The console report `safe_delete_agent` ends with.  Every constructor is a
printed message; the function has no raising outcome, so returning a
`DeleteReport` for every `DeleteOutcome` is the never-raises property. -/
inductive DeleteReport where
  | cleaned (agent_id : String)
  | alreadyGone (agent_id : String)
  | warning (msg : String)
  | unexpected (msg : String)
deriving Repr, DecidableEq

/-- Embedding of `safe_delete_agent` (source lines 160-181).  On an
`HttpResponseError` the code lowercases `str(e)` and treats the error as
already-gone when that text contains "no assistant" or the status code is
404; any other service error is only a warning; any other exception is
reported and swallowed. -/
def safe_delete_agent (agent_id : String) (outcome : DeleteOutcome) : DeleteReport :=
  match outcome with
  | .success => .cleaned agent_id
  | .httpError e =>
    let msg := lower e.message
    if strContains msg "no assistant" || e.status_code == 404 then
      .alreadyGone agent_id
    else
      .warning e.message
  | .otherExn m => .unexpected m

/-- One input-loop event: a line returned by `input()`, an `EOFError`, or a
`KeyboardInterrupt` arriving at the loop boundary. -/
inductive InputEvent where
  | line (raw : String)
  | eof
  | interrupt
deriving Repr, DecidableEq

/-- Service behaviour available to one processing turn: whether the message
create call raises, the outcome of `create_and_process`, and the reply
message the service appends to the thread when the run succeeds. -/
structure TurnEnv where
  appendError : Option HttpError
  runResponse : Except HttpError Run
  reply : Message
deriving Repr

/-- Counts of the per-turn calls made by one loop iteration. -/
structure TurnTrace where
  appendCalls : Nat
  runCalls : Nat
  showCalls : Nat
deriving Repr, DecidableEq

/-- Result of one loop iteration: the thread afterwards, the calls made, and
whether the loop exited. -/
structure StepOut where
  thread : List Message
  trace : TurnTrace
  exited : Bool
deriving Repr, DecidableEq

/-- Embedding of one iteration of the `while True` loop in `main` (source
lines 205-224).  EOF and interrupt exit at once; input is stripped; "q" in
any case exits; an empty line re-prompts; otherwise the turn appends, runs
and displays, where an exception from append or run is caught by the turn's
handlers (`HttpResponseError` / `Exception`) and the loop continues, skipping
whatever follows the raising call. -/
def loop_step (thread : List Message) (ev : InputEvent) (env : TurnEnv) : StepOut :=
  match ev with
  | .eof => ⟨thread, ⟨0, 0, 0⟩, true⟩
  | .interrupt => ⟨thread, ⟨0, 0, 0⟩, true⟩
  | .line raw =>
    let user_text := strip raw
    if lower user_text = "q" then ⟨thread, ⟨0, 0, 0⟩, true⟩
    else if user_text = "" then ⟨thread, ⟨0, 0, 0⟩, false⟩
    else
      match env.appendError with
      | some _ => ⟨thread, ⟨1, 0, 0⟩, false⟩
      | none =>
        let thread1 := append_user_message thread user_text
        match run_agent env.runResponse with
        | .error _ => ⟨thread1, ⟨1, 1, 0⟩, false⟩
        | .ok _ => ⟨thread1 ++ [env.reply], ⟨1, 1, 1⟩, false⟩

/-- The input loop of `main` run over a sequence of events: steps until an
iteration exits or the supplied events run out, returning the final thread
and whether an exit trigger was reached. -/
def run_loop (thread : List Message) : List (InputEvent × TurnEnv) → List Message × Bool
  | [] => (thread, false)
  | (ev, env) :: rest =>
    let out := loop_step thread ev env
    if out.exited then (out.thread, true)
    else run_loop out.thread rest

/-- Result of a whole session: final thread, whether the loop exited, how
many deletion attempts the `finally` cleanup made, and the report of the
deletion attempt when one was made. -/
structure SessionOut where
  thread : List Message
  exited : Bool
  deleteCalls : Nat
  deleteReport : Option DeleteReport
deriving Repr, DecidableEq

/-- Embedding of the loop-plus-cleanup part of `main` (source lines 204-233):
the input loop runs on a fresh thread, and the `finally` block afterwards
calls `safe_delete_agent` exactly when `created_new` is set, once, and
otherwise keeps the existing agent. -/
def main_session (created_new : Bool) (agent_id : String)
    (delete_outcome : DeleteOutcome)
    (events : List (InputEvent × TurnEnv)) : SessionOut :=
  let r := run_loop [] events
  if created_new then
    ⟨r.1, r.2, 1, some (safe_delete_agent agent_id delete_outcome)⟩
  else
    ⟨r.1, r.2, 0, none⟩

/-- The accumulation loop of `fetch_messages` with an arbitrary starting
accumulator: it appends exactly the last text segments of the text-bearing
messages, in order. -/
theorem fetch_foldl_eq (msgs : List Message) (acc : List String) :
    msgs.foldl fetch_step acc = acc ++ spec_fetch_messages msgs := by
  induction msgs generalizing acc with
  | nil => simp [spec_fetch_messages]
  | cons m rest ih =>
    simp only [List.foldl_cons, spec_fetch_messages, List.filterMap_cons]
    cases h : m.textMessages.getLast? with
    | none => simpa [fetch_step, h, spec_fetch_messages] using ih acc
    | some t =>
      simp [fetch_step, h, spec_fetch_messages, ih (acc ++ [t])]

/-- Claim C1: `fetch_messages` returns the texts oldest-first, taking for
each message with at least one text segment only its last segment's text and
skipping every message with no text segment — i.e. it agrees with the spec's
description `spec_fetch_messages` on every thread; in particular on messages
with segments ["a","b"], [], ["c","d","e"] it returns ["b","e"]. -/
theorem fetch_messages_correct :
    (∀ msgs : List Message, fetch_messages msgs = spec_fetch_messages msgs) ∧
    fetch_messages
      [⟨MessageRole.user, ["a", "b"]⟩, ⟨MessageRole.user, []⟩,
       ⟨MessageRole.agent, ["c", "d", "e"]⟩] = ["b", "e"] := by
  constructor
  · intro msgs
    simpa using fetch_foldl_eq msgs []
  · rfl

/-- Claim C7: `show_latest` returns the placeholder "(no messages)" when
`fetch_messages` produced an empty sequence, and otherwise returns exactly
the last element of that sequence, unchanged. -/
theorem show_latest_correct (msgs : List Message) :
    (fetch_messages msgs = [] → show_latest msgs = "(no messages)") ∧
    (∀ (ts : List String) (l : String),
      fetch_messages msgs = ts ++ [l] → show_latest msgs = l) := by
  constructor
  · intro h
    simp [show_latest, h]
  · intro ts l h
    simp [show_latest, h]

/-- Witness for C7: on the empty thread the placeholder is returned, and on a
one-message thread with segments ["x","y"] the last fetched element "y" is
returned. -/
theorem show_latest_correct_witness :
    show_latest [] = "(no messages)" ∧
    show_latest [⟨MessageRole.agent, ["x", "y"]⟩] = "y" :=
  ⟨(show_latest_correct []).1 rfl,
   (show_latest_correct [⟨MessageRole.agent, ["x", "y"]⟩]).2 [] "y" rfl⟩

/-- Claim C3: when the terminal status is "failed", `run_agent` raises a
`RuntimeError` — an error distinguishable from any transport
`HttpResponseError` — carrying the run's `last_error` detail, and does not
return normally; when the terminal status is the success status "completed",
it returns the run unchanged, with no post-processing. -/
theorem run_agent_terminal (r : Run) :
    (r.status = "failed" →
      run_agent (.ok r) = .error (.runtimeError ("Run failed: " ++ r.last_error)) ∧
      ∀ e : HttpError, run_agent (.ok r) ≠ .error (.httpError e)) ∧
    (r.status = "completed" → run_agent (.ok r) = .ok r) := by
  constructor
  · intro h
    refine ⟨by simp [run_agent, h], ?_⟩
    intro e
    simp [run_agent, h]
  · intro h
    have hne : r.status ≠ "failed" := by
      rw [h]
      decide
    simp [run_agent, hne]

/-- Witness for C3: a run with status "failed" and detail "boom" yields the
`RuntimeError`, and a run with status "completed" is returned unchanged. -/
theorem run_agent_terminal_witness :
    run_agent (.ok ⟨"failed", "boom"⟩) =
      .error (.runtimeError ("Run failed: " ++ "boom")) ∧
    run_agent (.ok ⟨"completed", ""⟩) = .ok ⟨"completed", ""⟩ :=
  ⟨((run_agent_terminal ⟨"failed", "boom"⟩).1 rfl).1,
   (run_agent_terminal ⟨"completed", ""⟩).2 rfl⟩

/-- Claim C4: with a configured existing-agent id, `ensure_agent` makes
exactly one get call and zero create calls, and whenever that get call fails
with any service error it ends in `SystemExit` surfacing the underlying
error text — no agent is created and there is no fallback to creation. -/
theorem ensure_agent_fetch_failure (id : String)
    (get_agent : String → Except HttpError Agent) (created : Agent) :
    (ensure_agent (some id) get_agent created).2.getCalls = 1 ∧
    (ensure_agent (some id) get_agent created).2.createCalls = 0 ∧
    ∀ e : HttpError, get_agent id = .error e →
      (ensure_agent (some id) get_agent created).1 =
        .exit ("既存エージェント取得失敗: " ++ e.message) := by
  refine ⟨?_, ?_, ?_⟩
  · cases h : get_agent id <;> simp [ensure_agent, h]
  · cases h : get_agent id <;> simp [ensure_agent, h]
  · intro e he
    simp [ensure_agent, he]

/-- Witness for C4: a configured id whose fetch reports 404 not-found gives
one get call, zero create calls, and `SystemExit` with the error text. -/
theorem ensure_agent_fetch_failure_witness :
    (ensure_agent (some "agent-1") (fun _ => .error ⟨404, "not found"⟩)
      ⟨"fresh"⟩).2.getCalls = 1 ∧
    (ensure_agent (some "agent-1") (fun _ => .error ⟨404, "not found"⟩)
      ⟨"fresh"⟩).2.createCalls = 0 ∧
    (ensure_agent (some "agent-1") (fun _ => .error ⟨404, "not found"⟩)
      ⟨"fresh"⟩).1 = .exit ("既存エージェント取得失敗: " ++ "not found") :=
  ⟨(ensure_agent_fetch_failure "agent-1" (fun _ => .error ⟨404, "not found"⟩) ⟨"fresh"⟩).1,
   (ensure_agent_fetch_failure "agent-1" (fun _ => .error ⟨404, "not found"⟩) ⟨"fresh"⟩).2.1,
   (ensure_agent_fetch_failure "agent-1" (fun _ => .error ⟨404, "not found"⟩) ⟨"fresh"⟩).2.2
     ⟨404, "not found"⟩ rfl⟩

/-- Claim C5: `safe_delete_agent` handles every outcome of the delete call
without raising — its result type has no raising alternative and it is total
over `DeleteOutcome` — and classifies: normal return is a confirmation, a
service error recognised as not-found (already absent) is treated as success
with no alarm, any other service error is only a warning, and any
non-service exception is reported and swallowed. -/
theorem safe_delete_agent_total (agent_id : String) (outcome : DeleteOutcome) :
    (outcome = .success →
      safe_delete_agent agent_id outcome = .cleaned agent_id) ∧
    (∀ e : HttpError, outcome = .httpError e →
      (strContains (lower e.message) "no assistant" || e.status_code == 404) = true →
      safe_delete_agent agent_id outcome = .alreadyGone agent_id) ∧
    (∀ e : HttpError, outcome = .httpError e →
      (strContains (lower e.message) "no assistant" || e.status_code == 404) = false →
      safe_delete_agent agent_id outcome = .warning e.message) ∧
    (∀ m : String, outcome = .otherExn m →
      safe_delete_agent agent_id outcome = .unexpected m) := by
  refine ⟨?_, ?_, ?_, ?_⟩
  · intro h
    simp [safe_delete_agent, h]
  · intro e he hc
    simp [safe_delete_agent, he, hc]
  · intro e he hc
    simp [safe_delete_agent, he, hc]
  · intro m hm
    simp [safe_delete_agent, hm]

/-- Witness for C5: a normal delete confirms; a 404 service error is treated
as already gone; a 500 service error with an unrelated text is only a
warning; a non-service exception is reported and swallowed. -/
theorem safe_delete_agent_total_witness :
    safe_delete_agent "a1" .success = .cleaned "a1" ∧
    safe_delete_agent "a1" (.httpError ⟨404, "gone"⟩) = .alreadyGone "a1" ∧
    safe_delete_agent "a1" (.httpError ⟨500, "server exploded"⟩) =
      .warning "server exploded" ∧
    safe_delete_agent "a1" (.otherExn "KeyError") = .unexpected "KeyError" :=
  ⟨(safe_delete_agent_total "a1" .success).1 rfl,
   (safe_delete_agent_total "a1" (.httpError ⟨404, "gone"⟩)).2.1
     ⟨404, "gone"⟩ rfl (by decide),
   (safe_delete_agent_total "a1" (.httpError ⟨500, "server exploded"⟩)).2.2.1
     ⟨500, "server exploded"⟩ rfl (by decide),
   (safe_delete_agent_total "a1" (.otherExn "KeyError")).2.2.2 "KeyError" rfl⟩

/-- Claim C10: a service error during deletion is classified as the lenient
not-found case exactly when its status code is 404 or its lowercased text
contains the substring "no assistant"; in particular a non-404 service error
whose text contains that substring is treated as already deleted, not as a
warning. -/
theorem safe_delete_not_found_class (agent_id : String) (e : HttpError) :
    (safe_delete_agent agent_id (.httpError e) = .alreadyGone agent_id ↔
      e.status_code = 404 ∨ strContains (lower e.message) "no assistant" = true) ∧
    (e.status_code ≠ 404 → strContains (lower e.message) "no assistant" = true →
      safe_delete_agent agent_id (.httpError e) = .alreadyGone agent_id) := by
  constructor
  · by_cases hc : (strContains (lower e.message) "no assistant" || e.status_code == 404) = true
    · simp only [safe_delete_agent, hc, if_pos]
      rw [Bool.or_eq_true, beq_iff_eq] at hc
      simp [hc.symm, or_comm]
    · rw [Bool.or_eq_true, beq_iff_eq] at hc
      push_neg at hc
      simp only [Bool.not_eq_true] at hc
      simp [safe_delete_agent, hc.1, hc.2, or_comm]
  · intro hne hc
    simp [safe_delete_agent, hc]

/-- Witness for C10: a 500-status error whose text lowercases to one
containing "no assistant" is classified as already gone. -/
theorem safe_delete_not_found_class_witness :
    safe_delete_agent "a1" (.httpError ⟨500, "No Assistant found with id a1"⟩) =
      .alreadyGone "a1" :=
  (safe_delete_not_found_class "a1" ⟨500, "No Assistant found with id a1"⟩).2
    (by decide) (by decide)

/-- Claim C8: on any input line whose stripped text lowercases to the exit
token "q", the loop exits at once with zero append calls, zero run calls,
zero fetch-and-display calls, and an unchanged thread — no remote call is
made for that input. -/
theorem loop_step_quit (thread : List Message) (raw : String) (env : TurnEnv)
    (hq : lower (strip raw) = "q") :
    loop_step thread (.line raw) env = ⟨thread, ⟨0, 0, 0⟩, true⟩ := by
  simp only [loop_step]
  rw [if_pos hq]

/-- Witness for C8: the input " Q " (upper case, surrounded by whitespace)
exits with no calls and the thread untouched. -/
theorem loop_step_quit_witness :
    loop_step [] (.line " Q ")
      ⟨none, .ok ⟨"completed", ""⟩, ⟨MessageRole.agent, []⟩⟩ =
      ⟨[], ⟨0, 0, 0⟩, true⟩ :=
  loop_step_quit [] " Q " ⟨none, .ok ⟨"completed", ""⟩, ⟨MessageRole.agent, []⟩⟩
    (by decide)

/-- Counterexample to C2 as stated: "hello" is a non-empty, non-"q" input,
yet on a turn whose run reaches the terminal status "failed" the loop makes
zero fetch-and-display calls, not one — the display step is skipped when the
run fails, contradicting "one fetch-and-display occurs regardless of whether
the run succeeded or failed". -/
theorem loop_step_show_skipped_on_failed_run :
    strip "hello" ≠ "" ∧ lower (strip "hello") ≠ "q" ∧
    (loop_step [] (.line "hello")
      ⟨none, .ok ⟨"failed", "server overloaded"⟩,
        ⟨MessageRole.agent, ["r"]⟩⟩).trace.showCalls = 0 ∧
    ¬ (loop_step [] (.line "hello")
      ⟨none, .ok ⟨"failed", "server overloaded"⟩,
        ⟨MessageRole.agent, ["r"]⟩⟩).trace.showCalls = 1 := by
  refine ⟨by decide, by decide, rfl, by decide⟩

/-- Claim C2 (amended): for every loop iteration whose stripped input is
non-empty and not the exit token "q", exactly one append call occurs and the
loop returns to awaiting input afterwards regardless of success or failure;
exactly one run call occurs when the append succeeded (none when it raised),
and exactly one fetch-and-display occurs when the run also succeeded (none
when the append or the run raised). -/
theorem loop_step_processing_turn (thread : List Message) (raw : String)
    (env : TurnEnv)
    (hq : lower (strip raw) ≠ "q") (hne : strip raw ≠ "") :
    (loop_step thread (.line raw) env).exited = false ∧
    (loop_step thread (.line raw) env).trace.appendCalls = 1 ∧
    (loop_step thread (.line raw) env).trace.runCalls =
      (match env.appendError with
       | none => 1
       | some _ => 0) ∧
    (loop_step thread (.line raw) env).trace.showCalls =
      (match env.appendError, run_agent env.runResponse with
       | none, .ok _ => 1
       | _, _ => 0) := by
  simp only [loop_step]
  rw [if_neg hq, if_neg hne]
  cases h1 : env.appendError with
  | some e => simp
  | none =>
    cases h2 : run_agent env.runResponse with
    | error err => simp [h2]
    | ok r => simp [h2]

/-- Witness for C2 (amended): on input "hi" with a succeeding append and a
run completing successfully, the turn makes one append, one run, one
fetch-and-display, and returns to awaiting input. -/
theorem loop_step_processing_turn_witness :
    (loop_step [] (.line "hi")
      ⟨none, .ok ⟨"completed", ""⟩, ⟨MessageRole.agent, ["ok"]⟩⟩).exited = false ∧
    (loop_step [] (.line "hi")
      ⟨none, .ok ⟨"completed", ""⟩, ⟨MessageRole.agent, ["ok"]⟩⟩).trace.appendCalls = 1 ∧
    (loop_step [] (.line "hi")
      ⟨none, .ok ⟨"completed", ""⟩, ⟨MessageRole.agent, ["ok"]⟩⟩).trace.runCalls = 1 ∧
    (loop_step [] (.line "hi")
      ⟨none, .ok ⟨"completed", ""⟩, ⟨MessageRole.agent, ["ok"]⟩⟩).trace.showCalls = 1 := by
  have h := loop_step_processing_turn [] "hi"
    ⟨none, .ok ⟨"completed", ""⟩, ⟨MessageRole.agent, ["ok"]⟩⟩ (by decide) (by decide)
  exact ⟨h.1, h.2.1, h.2.2.1, h.2.2.2⟩

/-- Claim C9: a turn is not atomic on failure — when the append succeeds and
the run then raises (failed run or service error), the iteration is contained
(the loop does not exit) but the thread afterwards is exactly the old thread
with the user message appended: the already-appended message remains and no
rollback happens. -/
theorem turn_not_atomic (thread : List Message) (raw : String) (env : TurnEnv)
    (hq : lower (strip raw) ≠ "q") (hne : strip raw ≠ "")
    (ha : env.appendError = none) (err : AgentError)
    (hr : run_agent env.runResponse = .error err) :
    loop_step thread (.line raw) env =
      ⟨append_user_message thread (strip raw), ⟨1, 1, 0⟩, false⟩ ∧
    (⟨MessageRole.user, [strip raw]⟩ : Message) ∈
      (loop_step thread (.line raw) env).thread := by
  have h1 : loop_step thread (.line raw) env =
      ⟨append_user_message thread (strip raw), ⟨1, 1, 0⟩, false⟩ := by
    simp only [loop_step]
    rw [if_neg hq, if_neg hne, ha, hr]
  refine ⟨h1, ?_⟩
  rw [h1]
  simp [append_user_message]

/-- Witness for C9: on input "hello" with a succeeding append and a run that
reaches the terminal status "failed", the thread afterwards is the singleton
user message "hello", which is a member of it, and the loop continues. -/
theorem turn_not_atomic_witness :
    loop_step [] (.line "hello")
      ⟨none, .ok ⟨"failed", "x"⟩, ⟨MessageRole.agent, []⟩⟩ =
      ⟨append_user_message [] (strip "hello"), ⟨1, 1, 0⟩, false⟩ ∧
    (⟨MessageRole.user, [strip "hello"]⟩ : Message) ∈
      (loop_step [] (.line "hello")
        ⟨none, .ok ⟨"failed", "x"⟩, ⟨MessageRole.agent, []⟩⟩).thread :=
  turn_not_atomic [] "hello" ⟨none, .ok ⟨"failed", "x"⟩, ⟨MessageRole.agent, []⟩⟩
    (by decide) (by decide) rfl (.runtimeError ("Run failed: " ++ "x")) rfl

/-- Claim C6: whenever the input loop reaches an exit trigger (exit token,
end-of-input, or interrupt), the cleanup after it makes exactly one deletion
attempt when the agent was newly created this session, and zero deletion
attempts when a pre-existing agent was used. -/
theorem main_cleanup_once (created_new : Bool) (agent_id : String)
    (delete_outcome : DeleteOutcome) (events : List (InputEvent × TurnEnv))
    (hexit : (run_loop [] events).2 = true) :
    (main_session created_new agent_id delete_outcome events).deleteCalls =
      (if created_new then 1 else 0) ∧
    (created_new = true →
      (main_session created_new agent_id delete_outcome events).deleteReport =
        some (safe_delete_agent agent_id delete_outcome)) ∧
    (created_new = false →
      (main_session created_new agent_id delete_outcome events).deleteReport =
        none) ∧
    (main_session created_new agent_id delete_outcome events).exited = true := by
  cases created_new <;> simp [main_session, hexit]

/-- Witness for C6: a session ended by end-of-input makes one deletion
attempt when the agent was created this session and zero when it was
pre-existing. -/
theorem main_cleanup_once_witness :
    (main_session true "a1" .success
      [(.eof, ⟨none, .ok ⟨"completed", ""⟩, ⟨MessageRole.agent, []⟩⟩)]).deleteCalls = 1 ∧
    (main_session false "a1" .success
      [(.eof, ⟨none, .ok ⟨"completed", ""⟩, ⟨MessageRole.agent, []⟩⟩)]).deleteCalls = 0 := by
  have h1 := main_cleanup_once true "a1" .success
    [(.eof, ⟨none, .ok ⟨"completed", ""⟩, ⟨MessageRole.agent, []⟩⟩)] rfl
  have h2 := main_cleanup_once false "a1" .success
    [(.eof, ⟨none, .ok ⟨"completed", ""⟩, ⟨MessageRole.agent, []⟩⟩)] rfl
  exact ⟨h1.1, h2.1⟩

end ToeicConsole
